import Mathlib

/-!
Verification of the Sūrya Siddhānta position engine.

The source computes true geocentric longitudes of the seven classical
bodies plus the lunar nodes from a single elapsed-days scalar.  Machine
floating point (f64) is modelled by the real numbers; the Rust remainder
on floats (sign of the dividend, toward-zero truncation) and the Rust
fract operation (x minus its truncation toward zero) are modelled
explicitly below, since their behaviour on negative inputs is what some
of the claims are about.
-/

namespace SuryaSidhanta

/-- Days in one mahāyuga cycle (source constant MAHAYUGA_DAYS). -/
noncomputable def MAHAYUGA_DAYS : ℝ := 1577917828

/-- The fixed sine-table radius (source constant R, 3438 arc-minutes). -/
noncomputable def R : ℝ := 3438

/-- Body class (source enum PlanetType). -/
inductive PlanetType where
  | Luminary
  | Star
deriving DecidableEq

/-- Pair of epicycle circumferences at even (0 deg) and odd (90 deg) anomaly
(source struct EpicycleDims). -/
structure EpicycleDims where
  even : ℝ
  odd : ℝ

/-- Per-body constant parameters (source struct PlanetParam). -/
structure PlanetParam where
  name : String
  ptype : PlanetType
  revs : ℝ
  manda_ep : EpicycleDims
  sighra_ep : Option EpicycleDims
  bija_offset : ℝ
  apsis_offset : ℝ
  apsis_revs : ℝ

/-- Truncation of a real toward zero, as an integer: the behaviour of the
Rust trunc operation underlying both the float remainder and fract. -/
noncomputable def rtrunc (x : ℝ) : ℤ :=
  if 0 ≤ x then ⌊x⌋ else ⌈x⌉

/-- Rust remainder on floats: x % y = x - y * trunc (x / y), sign of the
dividend. -/
noncomputable def fmod (x y : ℝ) : ℝ :=
  x - y * (rtrunc (x / y) : ℝ)

/-- Rust f64 fract: x - trunc x; lies in (-1, 0] for negative x. -/
noncomputable def fract (x : ℝ) : ℝ :=
  x - (rtrunc x : ℝ)

/-- Source fn norm360: reduce an angle with the float remainder by 360,
then add 360 if the result is negative. -/
noncomputable def norm360 (angle : ℝ) : ℝ :=
  if fmod angle 360 < 0 then fmod angle 360 + 360 else fmod angle 360

/-- Source fn sin_d: sine of an angle in degrees. -/
noncomputable def sin_d (deg : ℝ) : ℝ :=
  Real.sin (deg * (Real.pi / 180))

/-- Source fn cos_d: cosine of an angle in degrees. -/
noncomputable def cos_d (deg : ℝ) : ℝ :=
  Real.cos (deg * (Real.pi / 180))

/-- Source fn asin_d: arcsine returning degrees. -/
noncomputable def asin_d (val : ℝ) : ℝ :=
  Real.arcsin val * (180 / Real.pi)

/-- Source fn get_mean_longitude: proportional fraction of the mahāyuga
cycle, scaled to degrees, offset and normalized. -/
noncomputable def get_mean_longitude (days_elapsed revs correction : ℝ) : ℝ :=
  let cycles := days_elapsed * revs / MAHAYUGA_DAYS
  let fraction := fract cycles
  norm360 (fraction * 360 + correction)

/-- Source fn get_rectified_periphery: interpolate the epicycle size with
the absolute sine of the anomaly. -/
noncomputable def get_rectified_periphery (ep : EpicycleDims) (anomaly : ℝ) : ℝ :=
  ep.even - (ep.even - ep.odd) * |sin_d anomaly|

/-- The manda anomaly (the source computes it inline in
get_manda_correction). -/
noncomputable def manda_anomaly (mean_lon ucca : ℝ) : ℝ :=
  norm360 (mean_lon - ucca)

/-- The arcsine argument of the manda correction (source local sin_eq):
rectified circumference times sine of anomaly, over 360. -/
noncomputable def manda_sin_eq (mean_lon ucca : ℝ) (ep : EpicycleDims) : ℝ :=
  get_rectified_periphery ep (manda_anomaly mean_lon ucca) *
    sin_d (manda_anomaly mean_lon ucca) / 360

/-- Source fn get_manda_correction: equation-of-center correction. -/
noncomputable def get_manda_correction (mean_lon ucca : ℝ) (ep : EpicycleDims) : ℝ :=
  asin_d (manda_sin_eq mean_lon ucca ep)

/-- The unclamped normalized sine of the sighra correction (source locals
through sine_val): rectangular decomposition and hypotenuse. -/
noncomputable def sighra_sine_val (planet_lon sighrocca : ℝ) (ep : EpicycleDims) : ℝ :=
  let anomaly := norm360 (sighrocca - planet_lon)
  let rectified_circum := get_rectified_periphery ep anomaly
  let r := rectified_circum / 360 * R
  let dohphala := r * sin_d anomaly
  let kotiphala := r * cos_d anomaly
  let karna := Real.sqrt ((R + kotiphala) ^ 2 + dohphala ^ 2)
  dohphala * R / karna

/-- The clamp of the sighra sine value to the closed interval from -R to R
(source local clamped: sine_val.max(-R).min(R)). -/
noncomputable def sighra_clamped (planet_lon sighrocca : ℝ) (ep : EpicycleDims) : ℝ :=
  min (max (sighra_sine_val planet_lon sighrocca ep) (-R)) R

/-- Source fn get_sighra_correction: arcsine of the clamped normalized
sine over R. -/
noncomputable def get_sighra_correction (planet_lon sighrocca : ℝ) (ep : EpicycleDims) : ℝ :=
  asin_d (sighra_clamped planet_lon sighrocca ep / R)

/-- The pair (mean_lon, sighrocca_lon) selected at the top of source fn
calculate_true_position: luminaries use their own mean motion and a zero
sighrocca; Mercury and Venus use the Sun mean as mean longitude and their
own mean motion as sighrocca; other star planets the reverse. -/
noncomputable def mean_and_sighrocca (days : ℝ) (planet : PlanetParam) (sun_mean : ℝ) :
    ℝ × ℝ :=
  match planet.ptype with
  | PlanetType.Luminary => (get_mean_longitude days planet.revs planet.bija_offset, 0)
  | PlanetType.Star =>
    if planet.name = "Mercury" ∨ planet.name = "Venus" then
      (sun_mean, get_mean_longitude days planet.revs planet.bija_offset)
    else
      (get_mean_longitude days planet.revs planet.bija_offset, sun_mean)

/-- Source fn calculate_true_position.  The Rust code unwraps the sighra
epicycle option in the Star branch and would panic on None; that fallible
step is modelled by an Option result, none standing for the panic. -/
noncomputable def calculate_true_position (days : ℝ) (planet : PlanetParam)
    (sun_mean : ℝ) : Option ℝ :=
  let mean_lon := (mean_and_sighrocca days planet sun_mean).1
  let sighrocca_lon := (mean_and_sighrocca days planet sun_mean).2
  let manda_ucca := get_mean_longitude days planet.apsis_revs planet.apsis_offset
  match planet.ptype with
  | PlanetType.Luminary =>
    some (norm360 (mean_lon - get_manda_correction mean_lon manda_ucca planet.manda_ep))
  | PlanetType.Star =>
    match planet.sighra_ep with
    | none => none
    | some sighra_ep =>
      let s1 := get_sighra_correction mean_lon sighrocca_lon sighra_ep
      let p1 := mean_lon + s1 / 2
      let m1 := get_manda_correction p1 manda_ucca planet.manda_ep
      let p2 := mean_lon + m1 / 2
      let m2 := get_manda_correction p2 manda_ucca planet.manda_ep
      let p_manda := mean_lon + m2
      let s2 := get_sighra_correction p_manda sighrocca_lon sighra_ep
      some (norm360 (p_manda + s2))

/-- Node rate (source constant NODE_REVS). -/
noncomputable def NODE_REVS : ℝ := -232269.44830466

/-- Node epoch offset (source constant NODE_OFFSET). -/
noncomputable def NODE_OFFSET : ℝ := 189.47238376

/-- Source fn calculate_node_longitude: the ascending node (Rahu). -/
noncomputable def calculate_node_longitude (days : ℝ) : ℝ :=
  norm360 (get_mean_longitude days NODE_REVS NODE_OFFSET)

/-- The descending node (Ketu), as derived in source fn main:
norm360 (rahu + 180). -/
noncomputable def ketu_longitude (days : ℝ) : ℝ :=
  norm360 (calculate_node_longitude days + 180)

/-- Sun row of the source PLANETS table. -/
noncomputable def sunP : PlanetParam :=
  { name := "Sun", ptype := PlanetType.Luminary, revs := 4320848.34408488,
    manda_ep := ⟨14, 13.67⟩, sighra_ep := none, bija_offset := 358.23069795,
    apsis_offset := 150.65387626, apsis_revs := -167.46602982 }

/-- Moon row of the source PLANETS table. -/
noncomputable def moonP : PlanetParam :=
  { name := "Moon", ptype := PlanetType.Luminary, revs := 57753342.92393804,
    manda_ep := ⟨32, 31.67⟩, sighra_ep := none, bija_offset := 0.00018896,
    apsis_offset := 359.99999923, apsis_revs := 494300.42432448 }

/-- Mars row of the source PLANETS table. -/
noncomputable def marsP : PlanetParam :=
  { name := "Mars", ptype := PlanetType.Star, revs := 2296812.59669639,
    manda_ep := ⟨75, 72⟩, sighra_ep := some ⟨235, 232⟩, bija_offset := 11.08405200,
    apsis_offset := 292.32580688, apsis_revs := 41.43232597 }

/-- Mercury row of the source PLANETS table. -/
noncomputable def mercuryP : PlanetParam :=
  { name := "Mercury", ptype := PlanetType.Star, revs := 17937100.89276243,
    manda_ep := ⟨30, 28⟩, sighra_ep := some ⟨133, 132⟩, bija_offset := 337.29402275,
    apsis_offset := 45.06132833, apsis_revs := 2.13840157 }

/-- Jupiter row of the source PLANETS table. -/
noncomputable def jupiterP : PlanetParam :=
  { name := "Jupiter", ptype := PlanetType.Star, revs := 364191.78110405,
    manda_ep := ⟨33, 32⟩, sighra_ep := some ⟨70, 72⟩, bija_offset := 7.81164608,
    apsis_offset := 351.08026288, apsis_revs := -2.89738145 }

/-- Venus row of the source PLANETS table. -/
noncomputable def venusP : PlanetParam :=
  { name := "Venus", ptype := PlanetType.Star, revs := 7011399.58589762,
    manda_ep := ⟨12, 11⟩, sighra_ep := some ⟨262, 260⟩, bija_offset := 359.99978305,
    apsis_offset := 0.00015868, apsis_revs := 0.00015838 }

/-- Saturn row of the source PLANETS table. -/
noncomputable def saturnP : PlanetParam :=
  { name := "Saturn", ptype := PlanetType.Star, revs := 146704.22608823,
    manda_ep := ⟨49, 48⟩, sighra_ep := some ⟨39, 40⟩, bija_offset := 309.70285787,
    apsis_offset := 3.55375712, apsis_revs := 143.30051754 }

/-- The compiled-in body table (source constant PLANETS), in source order. -/
noncomputable def PLANETS : List PlanetParam :=
  [sunP, moonP, marsP, mercuryP, jupiterP, venusP, saturnP]

/-- The five-step star iteration exactly as the spec section 4.5 words it,
for comparison with the orchestrator in the source. -/
noncomputable def spec_star_iteration (mean_lon sighrocca manda_ucca : ℝ)
    (manda_ep sighra_ep : EpicycleDims) : ℝ :=
  let s1 := get_sighra_correction mean_lon sighrocca sighra_ep
  let p1 := mean_lon + s1 / 2
  let m1 := get_manda_correction p1 manda_ucca manda_ep
  let p2 := mean_lon + m1 / 2
  let m2 := get_manda_correction p2 manda_ucca manda_ep
  let p_manda := mean_lon + m2
  let s2 := get_sighra_correction p_manda sighrocca sighra_ep
  norm360 (p_manda + s2)

theorem rtrunc_of_nonneg {x : ℝ} (h : 0 ≤ x) : rtrunc x = ⌊x⌋ :=
  if_pos h

theorem rtrunc_of_neg {x : ℝ} (h : x < 0) : rtrunc x = ⌈x⌉ :=
  if_neg (not_le.mpr h)

theorem fract_bounds (x : ℝ) :
    (-1 < fract x ∧ fract x < 1) ∧ (0 ≤ x → 0 ≤ fract x) ∧ (x < 0 → fract x ≤ 0) := by
  unfold fract
  rcases le_or_lt 0 x with h | h
  · rw [rtrunc_of_nonneg h]
    have h1 := Int.floor_le x
    have h2 := Int.lt_floor_add_one x
    exact ⟨⟨by linarith, by linarith⟩, fun _ => by linarith,
      fun hx => absurd hx (not_lt.mpr h)⟩
  · rw [rtrunc_of_neg h]
    have h1 := Int.le_ceil x
    have h2 := Int.ceil_lt_add_one x
    exact ⟨⟨by linarith, by linarith⟩, fun hx => absurd hx (not_le.mpr h),
      fun _ => by linarith⟩

theorem fmod_360_eq (x : ℝ) : fmod x 360 = 360 * fract (x / 360) := by
  unfold fmod fract
  have h : 360 * (x / 360) = x := by
    field_simp
  rw [mul_sub, h]

theorem norm360_bounds (x : ℝ) : 0 ≤ norm360 x ∧ norm360 x < 360 := by
  unfold norm360
  have hb := (fract_bounds (x / 360)).1
  have he := fmod_360_eq x
  rcases lt_or_le (fmod x 360) 0 with hc | hc
  · rw [if_pos hc]
    constructor
    · nlinarith [hb.1]
    · linarith
  · rw [if_neg (not_lt.mpr hc)]
    constructor
    · exact hc
    · nlinarith [hb.2]

theorem norm360_eq_sub_int (x : ℝ) : ∃ k : ℤ, norm360 x = x - 360 * (k : ℝ) := by
  unfold norm360 fmod
  rcases lt_or_le (x - 360 * (rtrunc (x / 360) : ℝ)) 0 with hc | hc
  · rw [if_pos hc]
    exact ⟨rtrunc (x / 360) - 1, by push_cast; ring⟩
  · rw [if_neg (not_lt.mpr hc)]
    exact ⟨rtrunc (x / 360), by ring⟩

theorem norm360_congr {x y : ℝ} (h : ∃ k : ℤ, x - y = 360 * (k : ℝ)) :
    norm360 x = norm360 y := by
  obtain ⟨k, hk⟩ := h
  obtain ⟨a, ha⟩ := norm360_eq_sub_int x
  obtain ⟨b, hb⟩ := norm360_eq_sub_int y
  obtain ⟨hx0, hx1⟩ := norm360_bounds x
  obtain ⟨hy0, hy1⟩ := norm360_bounds y
  have hdiff : norm360 x - norm360 y = 360 * ((k - a + b : ℤ) : ℝ) := by
    push_cast
    linarith
  have h1 : ((k - a + b : ℤ) : ℝ) < 1 := by nlinarith
  have h2 : -1 < ((k - a + b : ℤ) : ℝ) := by nlinarith
  have hz : (k - a + b : ℤ) = 0 := by
    have p1 : (k - a + b : ℤ) < 1 := by exact_mod_cast h1
    have p2 : -1 < (k - a + b : ℤ) := by exact_mod_cast h2
    omega
  rw [hz] at hdiff
  push_cast at hdiff
  linarith

theorem norm360_eq_self {x : ℝ} (h0 : 0 ≤ x) (h1 : x < 360) : norm360 x = x := by
  obtain ⟨a, ha⟩ := norm360_eq_sub_int x
  obtain ⟨hb0, hb1⟩ := norm360_bounds x
  have p1 : ((a : ℝ)) < 1 := by nlinarith
  have p2 : -1 < ((a : ℝ)) := by nlinarith
  have hz : a = 0 := by
    have q1 : a < 1 := by exact_mod_cast p1
    have q2 : -1 < a := by exact_mod_cast p2
    omega
  rw [hz] at ha
  norm_num at ha
  linarith

theorem asin_d_abs_le (t : ℝ) : |asin_d t| ≤ 90 := by
  unfold asin_d
  have hpi : 0 < Real.pi := Real.pi_pos
  have h1 : |Real.arcsin t| ≤ Real.pi / 2 :=
    abs_le.mpr ⟨Real.neg_pi_div_two_le_arcsin t, Real.arcsin_le_pi_div_two t⟩
  have hpos : (0 : ℝ) < 180 / Real.pi := by positivity
  rw [abs_mul, abs_of_pos hpos]
  have h2 : |Real.arcsin t| * (180 / Real.pi) ≤ Real.pi / 2 * (180 / Real.pi) :=
    mul_le_mul_of_nonneg_right h1 (le_of_lt hpos)
  have heq : Real.pi / 2 * (180 / Real.pi) = 90 := by
    field_simp
    ring
  linarith

theorem abs_sin_d_le_one (deg : ℝ) : |sin_d deg| ≤ 1 := by
  unfold sin_d
  exact abs_le.mpr ⟨Real.neg_one_le_sin _, Real.sin_le_one _⟩

theorem manda_sin_eq_abs_lt_one {ep : EpicycleDims} (h0 : 0 ≤ ep.odd)
    (h1 : ep.odd ≤ ep.even) (h2 : ep.even ≤ 75) (mean_lon ucca : ℝ) :
    |manda_sin_eq mean_lon ucca ep| < 1 := by
  unfold manda_sin_eq get_rectified_periphery
  have hs := abs_sin_d_le_one (manda_anomaly mean_lon ucca)
  have hsn := abs_nonneg (sin_d (manda_anomaly mean_lon ucca))
  rw [abs_div, abs_mul]
  have hr0 : 0 ≤ ep.even - (ep.even - ep.odd) * |sin_d (manda_anomaly mean_lon ucca)| := by
    nlinarith
  have hr75 : ep.even - (ep.even - ep.odd) * |sin_d (manda_anomaly mean_lon ucca)| ≤ 75 := by
    nlinarith
  rw [abs_of_nonneg hr0]
  have h360 : |(360 : ℝ)| = 360 := by norm_num
  rw [h360, div_lt_one (by norm_num : (0 : ℝ) < 360)]
  nlinarith

/-- C1: for every Star-class planet with a sighra epicycle, every elapsed
days and every sun mean longitude, calculate_true_position follows exactly
the fixed five-step iteration of the spec: s1, half-sighra bootstrap p1,
m1, p2, m2, p_manda re-applied to the original mean, final s2, and the
normalized sum. -/
theorem star_true_position_five_step (days : ℝ) (p : PlanetParam) (sun_mean : ℝ)
    (ep : EpicycleDims) (hty : p.ptype = PlanetType.Star) (hep : p.sighra_ep = some ep) :
    calculate_true_position days p sun_mean =
      some (spec_star_iteration (mean_and_sighrocca days p sun_mean).1
        (mean_and_sighrocca days p sun_mean).2
        (get_mean_longitude days p.apsis_revs p.apsis_offset) p.manda_ep ep) := by
  simp only [calculate_true_position, spec_star_iteration, hty, hep]

/-- Witness for C1, instantiated at Mars. -/
theorem star_true_position_five_step_witness :
    calculate_true_position 10 marsP 20 =
      some (spec_star_iteration (mean_and_sighrocca 10 marsP 20).1
        (mean_and_sighrocca 10 marsP 20).2
        (get_mean_longitude 10 marsP.apsis_revs marsP.apsis_offset) marsP.manda_ep
        ⟨235, 232⟩) :=
  star_true_position_five_step 10 marsP 20 ⟨235, 232⟩ rfl rfl

/-- C2: for every Luminary body, calculate_true_position applies no sighra
correction and returns the mean longitude minus the manda correction,
normalized. -/
theorem luminary_true_position_manda_subtracted (days : ℝ) (p : PlanetParam)
    (sun_mean : ℝ) (hty : p.ptype = PlanetType.Luminary) :
    calculate_true_position days p sun_mean =
      some (norm360 (get_mean_longitude days p.revs p.bija_offset -
        get_manda_correction (get_mean_longitude days p.revs p.bija_offset)
          (get_mean_longitude days p.apsis_revs p.apsis_offset) p.manda_ep)) := by
  simp only [calculate_true_position, mean_and_sighrocca, hty]

/-- Witness for C2, instantiated at the Sun. -/
theorem luminary_true_position_manda_subtracted_witness :
    calculate_true_position 0 sunP 123 =
      some (norm360 (get_mean_longitude 0 sunP.revs sunP.bija_offset -
        get_manda_correction (get_mean_longitude 0 sunP.revs sunP.bija_offset)
          (get_mean_longitude 0 sunP.apsis_revs sunP.apsis_offset) sunP.manda_ep)) :=
  luminary_true_position_manda_subtracted 0 sunP 123 rfl

/-- C3: among Star-class planets, exactly those named Mercury or Venus get
the Sun mean longitude as mean longitude and their own mean motion as
sighra anomaly longitude; the other star planets get the reverse
assignment. -/
theorem mercury_venus_mean_anomaly_swap (days : ℝ) (p : PlanetParam) (sun_mean : ℝ)
    (hty : p.ptype = PlanetType.Star) :
    (p.name = "Mercury" ∨ p.name = "Venus" →
      mean_and_sighrocca days p sun_mean =
        (sun_mean, get_mean_longitude days p.revs p.bija_offset)) ∧
    (¬(p.name = "Mercury" ∨ p.name = "Venus") →
      mean_and_sighrocca days p sun_mean =
        (get_mean_longitude days p.revs p.bija_offset, sun_mean)) := by
  refine ⟨fun h => ?_, fun h => ?_⟩
  · simp only [mean_and_sighrocca, hty, if_pos h]
  · simp only [mean_and_sighrocca, hty, if_neg h]

/-- Witness for C3, instantiated at Mercury. -/
theorem mercury_venus_mean_anomaly_swap_witness :
    (mercuryP.name = "Mercury" ∨ mercuryP.name = "Venus" →
      mean_and_sighrocca 1 mercuryP 2 =
        (2, get_mean_longitude 1 mercuryP.revs mercuryP.bija_offset)) ∧
    (¬(mercuryP.name = "Mercury" ∨ mercuryP.name = "Venus") →
      mean_and_sighrocca 1 mercuryP 2 =
        (get_mean_longitude 1 mercuryP.revs mercuryP.bija_offset, 2)) :=
  mercury_venus_mean_anomaly_swap 1 mercuryP 2 rfl

/-- C4: norm360 always returns a value in the half-open interval from 0 to
360, for every real input, including negative inputs. -/
theorem norm360_range_claim (angle : ℝ) : 0 ≤ norm360 angle ∧ norm360 angle < 360 :=
  norm360_bounds angle

/-- C5 counterexample: the fractional part the code takes is Rust fract,
which is negative for negative cycles; at days = -1, revs = 788958914 the
cycles value is exactly minus one half and the fraction is negative, not
in the claimed interval from 0 to 1. -/
theorem mean_longitude_fract_counterexample :
    fract ((-1 : ℝ) * 788958914 / MAHAYUGA_DAYS) < 0 := by
  have h : (-1 : ℝ) * 788958914 / MAHAYUGA_DAYS = -(1 / 2) := by
    norm_num [MAHAYUGA_DAYS]
  rw [h]
  unfold fract
  rw [rtrunc_of_neg (by norm_num : (-(1 / 2) : ℝ) < 0)]
  have hc : ⌈(-(1 / 2) : ℝ)⌉ = 0 := by
    rw [Int.ceil_eq_zero_iff]
    constructor <;> norm_num
  rw [hc]
  norm_num

/-- C5 amended: the fractional part taken of cycles is sign-aware only in
the sense that it carries the sign of cycles: it lies in the open interval
from -1 to 1, is nonnegative for nonnegative cycles and nonpositive for
negative cycles (not in the interval from 0 to 1 in that case); the result
equals norm360 of that fraction times 360 plus the offset, and it also
equals norm360 of the floor-based fraction in the interval from 0 to 1
times 360 plus the offset, so the final output is unaffected. -/
theorem mean_longitude_fract_amended (days_elapsed revs correction : ℝ) :
    (-1 < fract (days_elapsed * revs / MAHAYUGA_DAYS) ∧
      fract (days_elapsed * revs / MAHAYUGA_DAYS) < 1) ∧
    (0 ≤ days_elapsed * revs / MAHAYUGA_DAYS →
      0 ≤ fract (days_elapsed * revs / MAHAYUGA_DAYS)) ∧
    (days_elapsed * revs / MAHAYUGA_DAYS < 0 →
      fract (days_elapsed * revs / MAHAYUGA_DAYS) ≤ 0) ∧
    get_mean_longitude days_elapsed revs correction =
      norm360 (fract (days_elapsed * revs / MAHAYUGA_DAYS) * 360 + correction) ∧
    get_mean_longitude days_elapsed revs correction =
      norm360 (Int.fract (days_elapsed * revs / MAHAYUGA_DAYS) * 360 + correction) := by
  obtain ⟨h1, h2, h3⟩ := fract_bounds (days_elapsed * revs / MAHAYUGA_DAYS)
  have h4 : get_mean_longitude days_elapsed revs correction =
      norm360 (fract (days_elapsed * revs / MAHAYUGA_DAYS) * 360 + correction) := rfl
  refine ⟨h1, h2, h3, h4, ?_⟩
  rw [h4]
  apply norm360_congr
  refine ⟨⌊days_elapsed * revs / MAHAYUGA_DAYS⌋ -
    rtrunc (days_elapsed * revs / MAHAYUGA_DAYS), ?_⟩
  unfold fract Int.fract
  push_cast
  ring

/-- Witness for C5 amended, instantiated at days 1, revs 1, offset 0. -/
theorem mean_longitude_fract_amended_witness :
    (-1 < fract ((1 : ℝ) * 1 / MAHAYUGA_DAYS) ∧
      fract ((1 : ℝ) * 1 / MAHAYUGA_DAYS) < 1) ∧
    (0 ≤ (1 : ℝ) * 1 / MAHAYUGA_DAYS → 0 ≤ fract ((1 : ℝ) * 1 / MAHAYUGA_DAYS)) ∧
    ((1 : ℝ) * 1 / MAHAYUGA_DAYS < 0 → fract ((1 : ℝ) * 1 / MAHAYUGA_DAYS) ≤ 0) ∧
    get_mean_longitude 1 1 0 =
      norm360 (fract ((1 : ℝ) * 1 / MAHAYUGA_DAYS) * 360 + 0) ∧
    get_mean_longitude 1 1 0 =
      norm360 (Int.fract ((1 : ℝ) * 1 / MAHAYUGA_DAYS) * 360 + 0) :=
  mean_longitude_fract_amended 1 1 0

/-- C6: the clamped sighra sine value divided by R lies in the closed
interval from -1 to 1, the correction is exactly the arcsine of that
clamped ratio (the clamp sits at that single step), and the correction
magnitude never exceeds 90 degrees. -/
theorem sighra_clamped_in_unit_interval (planet_lon sighrocca : ℝ) (ep : EpicycleDims) :
    (-1 ≤ sighra_clamped planet_lon sighrocca ep / R ∧
      sighra_clamped planet_lon sighrocca ep / R ≤ 1) ∧
    get_sighra_correction planet_lon sighrocca ep =
      asin_d (sighra_clamped planet_lon sighrocca ep / R) ∧
    |get_sighra_correction planet_lon sighrocca ep| ≤ 90 := by
  have hR : (0 : ℝ) < R := by norm_num [R]
  have hcR : sighra_clamped planet_lon sighrocca ep ≤ R := min_le_right _ _
  have hcR2 : -R ≤ sighra_clamped planet_lon sighrocca ep :=
    le_min (le_max_right _ _) (by linarith)
  refine ⟨⟨?_, ?_⟩, rfl, asin_d_abs_le _⟩
  · rw [le_div_iff₀ hR]
    linarith
  · rw [div_le_one hR]
    exact hcR

/-- C7: for every manda epicycle in the compiled-in PLANETS table and
every anomaly, the arcsine argument of the manda correction has magnitude
strictly below 1, so the arcsine stays inside its domain with no clamp. -/
theorem manda_sin_term_lt_one :
    ∀ p ∈ PLANETS, ∀ mean_lon ucca : ℝ, |manda_sin_eq mean_lon ucca p.manda_ep| < 1 := by
  intro p hp mean_lon ucca
  simp only [PLANETS, List.mem_cons, List.not_mem_nil, or_false] at hp
  rcases hp with h | h | h | h | h | h | h <;> subst h
  · exact manda_sin_eq_abs_lt_one (by norm_num [sunP]) (by norm_num [sunP])
      (by norm_num [sunP]) mean_lon ucca
  · exact manda_sin_eq_abs_lt_one (by norm_num [moonP]) (by norm_num [moonP])
      (by norm_num [moonP]) mean_lon ucca
  · exact manda_sin_eq_abs_lt_one (by norm_num [marsP]) (by norm_num [marsP])
      (by norm_num [marsP]) mean_lon ucca
  · exact manda_sin_eq_abs_lt_one (by norm_num [mercuryP]) (by norm_num [mercuryP])
      (by norm_num [mercuryP]) mean_lon ucca
  · exact manda_sin_eq_abs_lt_one (by norm_num [jupiterP]) (by norm_num [jupiterP])
      (by norm_num [jupiterP]) mean_lon ucca
  · exact manda_sin_eq_abs_lt_one (by norm_num [venusP]) (by norm_num [venusP])
      (by norm_num [venusP]) mean_lon ucca
  · exact manda_sin_eq_abs_lt_one (by norm_num [saturnP]) (by norm_num [saturnP])
      (by norm_num [saturnP]) mean_lon ucca

/-- Witness for C7, instantiated at the Sun row with both angles zero. -/
theorem manda_sin_term_lt_one_witness : |manda_sin_eq 0 0 sunP.manda_ep| < 1 :=
  manda_sin_term_lt_one sunP (by simp [PLANETS]) 0 0

/-- C8: Ketu is derived as norm360 of Rahu plus 180, and the two node
longitudes are always exactly 180 degrees apart modulo 360. -/
theorem ketu_rahu_opposition (days : ℝ) :
    ketu_longitude days = norm360 (calculate_node_longitude days + 180) ∧
    norm360 (ketu_longitude days - calculate_node_longitude days) = 180 := by
  refine ⟨rfl, ?_⟩
  obtain ⟨k, hk⟩ := norm360_eq_sub_int (calculate_node_longitude days + 180)
  have h1 : ketu_longitude days - calculate_node_longitude days = 180 - 360 * (k : ℝ) := by
    unfold ketu_longitude
    rw [hk]
    ring
  rw [h1]
  have h2 : norm360 (180 - 360 * (k : ℝ)) = norm360 180 :=
    norm360_congr ⟨-k, by push_cast; ring⟩
  rw [h2]
  exact norm360_eq_self (by norm_num) (by norm_num)

/-- C9: at days_elapsed 0 with the Sun row of the table,
get_mean_longitude returns exactly norm360 of the epoch offset, which is
the offset itself. -/
theorem sun_mean_longitude_at_epoch :
    get_mean_longitude 0 sunP.revs sunP.bija_offset = norm360 sunP.bija_offset ∧
    get_mean_longitude 0 sunP.revs sunP.bija_offset = 358.23069795 := by
  have hc : (0 : ℝ) * sunP.revs / MAHAYUGA_DAYS = 0 := by
    rw [zero_mul, zero_div]
  have hf : fract 0 = 0 := by
    unfold fract
    rw [rtrunc_of_nonneg le_rfl]
    norm_num
  have h1 : get_mean_longitude 0 sunP.revs sunP.bija_offset = norm360 sunP.bija_offset := by
    show norm360 (fract ((0 : ℝ) * sunP.revs / MAHAYUGA_DAYS) * 360 + sunP.bija_offset) =
      norm360 sunP.bija_offset
    rw [hc, hf]
    have he : (0 : ℝ) * 360 + sunP.bija_offset = sunP.bija_offset := by ring
    rw [he]
  refine ⟨h1, ?_⟩
  rw [h1]
  have hb : sunP.bija_offset = 358.23069795 := rfl
  rw [hb]
  exact norm360_eq_self (by norm_num) (by norm_num)

/-- C10: for a Luminary body, calculate_true_position never reads the sun
mean argument: any two values of it give the same result. -/
theorem luminary_ignores_sun_mean (days : ℝ) (p : PlanetParam)
    (hty : p.ptype = PlanetType.Luminary) (s t : ℝ) :
    calculate_true_position days p s = calculate_true_position days p t := by
  simp only [calculate_true_position, mean_and_sighrocca, hty]

/-- Witness for C10, instantiated at the Moon with two different sun mean
values. -/
theorem luminary_ignores_sun_mean_witness :
    calculate_true_position 3 moonP 1 = calculate_true_position 3 moonP 99 :=
  luminary_ignores_sun_mean 3 moonP rfl 1 99

end SuryaSidhanta
